import Mathlib

/-!
# Damage tracking of the GLFW example embedder and of `EmbedderSurfaceGL`

A shallow embedding of

* `examples/glfw/FlutterEmbedderGLFW.cc`: `JoinFlutterRect`, the
  `present_with_info` callback (which commits the frame damage to
  `damage_history_`) and the `fbo_with_damage_callback` (which rebuilds the
  existing damage of a buffer from its age and the history);
* `shell/platform/embedder/embedder_surface_gl.cc`: the constructor of
  `EmbedderSurfaceGL`, `IsValid`, `GLContextPresent`,
  `GLContextSetDamageRegion`, `FlutterRectToSkIRect` and `GLContextFBO`.

The fields of a `FlutterRect` are C `double`s.  The only operations the code
applies to them are copies, `std::min`, `std::max` and comparisons, all of
which are exact on doubles and depend only on their order, so a coordinate is
modelled by a rational number (every finite double is one).  NaN coordinates,
which violate the rectangle invariant `right ≥ left`, are outside the model.
-/

set_option autoImplicit false
set_option linter.unusedVariables false

namespace FlutterEngine

/-! ## Data model -/

/-- A rectangle of `embedder.h`: four scalar bounds. -/
structure FlutterRect where
  left : ℚ
  top : ℚ
  right : ℚ
  bottom : ℚ
  deriving DecidableEq

/-- The part of `FlutterPresentInfo` that `present_with_info` reads: the first
rectangle of the buffer damage and the first rectangle of the frame damage. -/
structure FlutterPresentInfo where
  buffer_damage : FlutterRect
  frame_damage : FlutterRect
  deriving DecidableEq

/-- The constant `static const size_t kInitialWindowWidth = 800;`. -/
def kInitialWindowWidth : Nat := 800

/-- The constant `static const size_t kInitialWindowHeight = 600;`. -/
def kInitialWindowHeight : Nat := 600

/-- The constant `static const int kMaxHistorySize = 10;`. -/
def kMaxHistorySize : Int := 10

/-- The library function `std::min(a, b)`, which is `(b < a) ? b : a`. -/
def stdMin (a b : ℚ) : ℚ := if b < a then b else a

/-- The library function `std::max(a, b)`, which is `(a < b) ? b : a`. -/
def stdMax (a b : ℚ) : ℚ := if a < b then b else a

/-- The function `JoinFlutterRect(FlutterRect* rect, FlutterRect additional_rect)`:
the value left in `*rect`. -/
def JoinFlutterRect (rect additional_rect : FlutterRect) : FlutterRect :=
  { left := stdMin rect.left additional_rect.left
    top := stdMin rect.top additional_rect.top
    right := stdMax rect.right additional_rect.right
    bottom := stdMax rect.bottom additional_rect.bottom }

/-! ## `present_with_info` -/

/-- The `present_with_info` callback on the global `damage_history_`
(most recent entry last).  `swap_result` is what
`eglSwapBuffersWithDamageKHR` returns; the callback discards it.  The frame
damage is pushed at the back, the front is popped when the size exceeds
`kMaxHistorySize`, and `true` is returned. -/
def present_with_info (swap_result : Bool) (info : FlutterPresentInfo)
    (damage_history_ : List FlutterRect) : Bool × List FlutterRect :=
  let pushed := damage_history_ ++ [info.frame_damage]
  let popped := if (pushed.length : Int) > kMaxHistorySize then pushed.tail else pushed
  (true, popped)

/-- The history after a run of presents, each given with the result of its
buffer swap, starting from `damage_history_`. -/
def presentAll (presents : List (Bool × FlutterPresentInfo))
    (damage_history_ : List FlutterRect) : List FlutterRect :=
  presents.foldl (fun hist p => (present_with_info p.1 p.2 hist).2) damage_history_

/-! ## `fbo_with_damage_callback` -/

/-- The `for` loop of `fbo_with_damage_callback`.  `at_rbegin` says whether
the iterator `i` still equals `damage_history_.rbegin()`, `age` is the
counter, the list holds what the reverse iterator has yet to visit (so its
head is `*i`) and the last argument is `existing_damage->damage[0]`. -/
def joinLoop : Bool → Int → List FlutterRect → FlutterRect → FlutterRect
  | _, _, [], damage => damage
  | at_rbegin, age, i :: rest, damage =>
    if age > 0 then
      joinLoop false (age - 1) rest
        (if at_rbegin then
          { left := i.left, top := i.top, right := i.right, bottom := i.bottom }
        else JoinFlutterRect damage i)
    else damage

/-- Lines 187-206 of the callback: `existing_damage->damage[0]` once the
`if (age > 1)` block is over, when it held `initial` before. -/
def existingDamage (age : Int) (damage_history_ : List FlutterRect)
    (initial : FlutterRect) : FlutterRect :=
  if age > 1 then joinLoop true (age - 1) damage_history_.reverse initial
  else initial

/-- The rectangle `FlutterRect{0, 0, kInitialWindowWidth, kInitialWindowHeight}`
the callback starts from. -/
def fullSurfaceRect : FlutterRect :=
  { left := 0, top := 0, right := kInitialWindowWidth, bottom := kInitialWindowHeight }

/-- The `fbo_with_damage_callback`: the rectangle it leaves in
`existing_damage->damage[0]`.  `buffer_age_supported` is the outcome of
`glfwExtensionSupported("GL_EXT_buffer_age") == GLFW_TRUE` and `queried_age`
the value `eglQuerySurface` stores for `EGL_BUFFER_AGE_EXT`. -/
def fbo_with_damage_callback (buffer_age_supported : Bool) (queried_age : Int)
    (damage_history_ : List FlutterRect) : FlutterRect :=
  let age := if buffer_age_supported then queried_age else 4
  existingDamage age damage_history_ fullSurfaceRect

/-- Bounds containment: `outer` reaches at least as far as `inner` on each of
the four sides. -/
def FlutterRect.contains (outer inner : FlutterRect) : Prop :=
  outer.left ≤ inner.left ∧ outer.top ≤ inner.top ∧
    inner.right ≤ outer.right ∧ inner.bottom ≤ outer.bottom

instance (outer inner : FlutterRect) : Decidable (outer.contains inner) := by
  unfold FlutterRect.contains; infer_instance

/-! ## `EmbedderSurfaceGL` -/

/-- An `SkIRect`: four 32-bit integer bounds. -/
structure SkIRect where
  fLeft : Int
  fTop : Int
  fRight : Int
  fBottom : Int
  deriving DecidableEq

/-- The members of the `GLDispatchTable` that the constructor,
`GLContextPresent` and `CreateResourceContext` read.  Each is a
`std::function`, which may be empty (`none`).  The types `GLPresentInfo`,
`GLFrameInfo` and `FlutterFrameBuffer` are declared in headers and are
parameters here. -/
structure GLDispatchTable (GLPresentInfo GLFrameInfo FlutterFrameBuffer : Type) where
  gl_make_current_callback : Option (Unit → Bool)
  gl_clear_current_callback : Option (Unit → Bool)
  gl_present_callback : Option (GLPresentInfo → Option SkIRect → Bool)
  gl_fbo_callback : Option (GLFrameInfo → FlutterFrameBuffer)
  gl_make_resource_current_callback : Option (Unit → Bool)

/-- Modelled from the spec: the default member initializer of `valid_`, which
is in `embedder_surface_gl.h`.  The constructor returns early, without
assigning `valid_`, when a required callback is absent, and the spec says the
surface is then marked invalid, so the initializer is `false`. -/
def valid_initializer : Bool := false

/-- The state of an `EmbedderSurfaceGL` that the modelled member functions
read or write.  `external_view_embedder_` records whether the shared pointer
is non-null. -/
structure EmbedderSurfaceGL (GLPresentInfo GLFrameInfo FlutterFrameBuffer : Type) where
  gl_dispatch_table_ : GLDispatchTable GLPresentInfo GLFrameInfo FlutterFrameBuffer
  fbo_reset_after_present_ : Bool
  external_view_embedder_ : Bool
  valid_ : Bool
  damage_region_ : Option SkIRect

section Surface

variable {GLPresentInfo GLFrameInfo FlutterFrameBuffer : Type}

/-- The constructor `EmbedderSurfaceGL::EmbedderSurfaceGL` (named `ctor`, as
the structure already has the name).  A freshly constructed `std::optional`
member holds no value. -/
def EmbedderSurfaceGL.ctor
    (gl_dispatch_table : GLDispatchTable GLPresentInfo GLFrameInfo FlutterFrameBuffer)
    (fbo_reset_after_present : Bool) (external_view_embedder : Bool) :
    EmbedderSurfaceGL GLPresentInfo GLFrameInfo FlutterFrameBuffer :=
  let self : EmbedderSurfaceGL GLPresentInfo GLFrameInfo FlutterFrameBuffer :=
    { gl_dispatch_table_ := gl_dispatch_table
      fbo_reset_after_present_ := fbo_reset_after_present
      external_view_embedder_ := external_view_embedder
      valid_ := valid_initializer
      damage_region_ := none }
  if !self.gl_dispatch_table_.gl_make_current_callback.isSome ||
      !self.gl_dispatch_table_.gl_clear_current_callback.isSome ||
      !self.gl_dispatch_table_.gl_present_callback.isSome ||
      !self.gl_dispatch_table_.gl_fbo_callback.isSome then
    self
  else
    { self with valid_ := true }

/-- The member function `EmbedderSurfaceGL::IsValid`. -/
def EmbedderSurfaceGL.IsValid
    (self : EmbedderSurfaceGL GLPresentInfo GLFrameInfo FlutterFrameBuffer) : Bool :=
  self.valid_

/-- The member function `EmbedderSurfaceGL::GLContextPresent`: the value returned and the surface
afterwards.  Calling an empty `std::function` throws, which is `none`. -/
def EmbedderSurfaceGL.GLContextPresent
    (self : EmbedderSurfaceGL GLPresentInfo GLFrameInfo FlutterFrameBuffer)
    (present_info : GLPresentInfo) :
    Option (Bool × EmbedderSurfaceGL GLPresentInfo GLFrameInfo FlutterFrameBuffer) :=
  match self.gl_dispatch_table_.gl_present_callback with
  | none => none
  | some callback => some (callback present_info self.damage_region_, self)

/-- The member function `EmbedderSurfaceGL::GLContextSetDamageRegion`. -/
def EmbedderSurfaceGL.GLContextSetDamageRegion
    (self : EmbedderSurfaceGL GLPresentInfo GLFrameInfo FlutterFrameBuffer)
    (region : Option SkIRect) :
    EmbedderSurfaceGL GLPresentInfo GLFrameInfo FlutterFrameBuffer :=
  { self with damage_region_ := region }

end Surface

/-! ## `FlutterRectToSkIRect` and `GLContextFBO` -/

/-- The conversion `static_cast<int32_t>(x)` of a `double`: the value
truncated toward zero.  When an `int32_t` cannot hold the truncated value the
conversion is undefined behaviour, which is `none`. -/
def static_cast_int32 (x : ℚ) : Option Int :=
  let truncated := Int.tdiv x.num x.den
  if -2147483648 ≤ truncated ∧ truncated ≤ 2147483647 then some truncated else none

/-- The function `FlutterRectToSkIRect`.  The braces initialize the members of
the `SkIRect` in their declaration order `fLeft`, `fTop`, `fRight`, `fBottom`
with the conversions of `left`, `right`, `top` and `bottom`, in this order. -/
def FlutterRectToSkIRect (flutter_rect : FlutterRect) : Option SkIRect :=
  match static_cast_int32 flutter_rect.left, static_cast_int32 flutter_rect.right,
    static_cast_int32 flutter_rect.top, static_cast_int32 flutter_rect.bottom with
  | some first, some second, some third, some fourth => some ⟨first, second, third, fourth⟩
  | _, _, _, _ => none

/-- The member function `EmbedderSurfaceGL::GLContextFBO`: the value returned
and the value assigned to `existing_damage_`.  The accessors `fbo_id` and
`damage` stand for `fbo.fbo_id` and `fbo.damage.damage` of the header type
`FlutterFrameBuffer`.  An empty callback or an undefined conversion is
`none`. -/
def EmbedderSurfaceGL.GLContextFBO {GLPresentInfo GLFrameInfo FlutterFrameBuffer : Type}
    (self : EmbedderSurfaceGL GLPresentInfo GLFrameInfo FlutterFrameBuffer)
    (fbo_id : FlutterFrameBuffer → Int) (damage : FlutterFrameBuffer → FlutterRect)
    (frame_info : GLFrameInfo) : Option (Int × SkIRect) :=
  match self.gl_dispatch_table_.gl_fbo_callback with
  | none => none
  | some callback =>
    let fbo := callback frame_info
    match FlutterRectToSkIRect (damage fbo) with
    | none => none
    | some existing_damage => some (fbo_id fbo, existing_damage)

/-! ## Example values -/

/-- A dispatch table with all four required callbacks, whose present callback
reports failure. -/
def failingTable : GLDispatchTable Unit Unit Unit :=
  { gl_make_current_callback := some fun _ => true
    gl_clear_current_callback := some fun _ => true
    gl_present_callback := some fun _ _ => false
    gl_fbo_callback := some fun _ => ()
    gl_make_resource_current_callback := none }

/-- A surface built from `failingTable`. -/
def failingSurface : EmbedderSurfaceGL Unit Unit Unit :=
  EmbedderSurfaceGL.ctor failingTable true false

/-- The frame damages `A`, `B` and a third rectangle of the spec's scenario. -/
def rectA : FlutterRect := ⟨10, 10, 50, 50⟩

/-- See `rectA`. -/
def rectB : FlutterRect := ⟨100, 100, 150, 150⟩

/-- See `rectA`. -/
def rectD : FlutterRect := ⟨5, 5, 6, 6⟩

/-- A rectangle with four different bounds. -/
def rectE : FlutterRect := ⟨10, 20, 30, 40⟩

/-- A surface whose fbo callback reports the framebuffer 0 with the damage
`rectE`; a framebuffer is the pair of its id and its damage. -/
def damageSurface : EmbedderSurfaceGL Unit Unit (Int × FlutterRect) :=
  EmbedderSurfaceGL.ctor
    { gl_make_current_callback := some fun _ => true
      gl_clear_current_callback := some fun _ => true
      gl_present_callback := some fun _ _ => true
      gl_fbo_callback := some fun _ => (0, rectE)
      gl_make_resource_current_callback := none }
    true false

/-! ## Helper lemmas -/

theorem stdMin_eq_min (a b : ℚ) : stdMin a b = min a b := by
  unfold stdMin
  split_ifs with h
  · exact (min_eq_right h.le).symm
  · exact (min_eq_left (not_lt.mp h)).symm

theorem stdMax_eq_max (a b : ℚ) : stdMax a b = max a b := by
  unfold stdMax
  split_ifs with h
  · exact (max_eq_right h.le).symm
  · exact (max_eq_left (not_lt.mp h)).symm

theorem joinLoop_false (rest : List FlutterRect) :
    ∀ (age : Int) (damage : FlutterRect),
      joinLoop false age rest damage
        = (rest.take age.toNat).foldl JoinFlutterRect damage := by
  induction rest with
  | nil => intro age damage; simp [joinLoop]
  | cons i rest ih =>
    intro age damage
    by_cases hpos : age > 0
    · have hnat : age.toNat = (age - 1).toNat + 1 := by omega
      rw [joinLoop, if_pos hpos, ih, hnat, List.take_succ_cons, List.foldl_cons]
      simp
    · have hnat : age.toNat = 0 := by omega
      simp [joinLoop, hpos, hnat]

theorem joinLoop_true_cons (age : Int) (i : FlutterRect) (rest : List FlutterRect)
    (damage : FlutterRect) (hpos : 0 < age) :
    joinLoop true age (i :: rest) damage
      = (rest.take (age - 1).toNat).foldl JoinFlutterRect i := by
  simp [joinLoop, hpos, joinLoop_false]

theorem existingDamage_nonempty (age : Int) (h : List FlutterRect) (initial : FlutterRect)
    (hage : 1 < age) (hne : h ≠ []) :
    existingDamage age h initial
      = ((h.reverse.take (min (age - 1).toNat h.length)).tail).foldl JoinFlutterRect
          (h.getLast hne) := by
  have hrev : h.reverse = h.getLast hne :: h.reverse.tail := by
    have hne2 : h.reverse ≠ [] := by simpa using hne
    rw [← List.head_reverse hne2]
    exact (List.head_cons_tail _ hne2).symm
  have hlen : h.length = h.reverse.tail.length + 1 := by
    have := congrArg List.length hrev
    simpa using this
  unfold existingDamage
  rw [if_pos hage, hrev, joinLoop_true_cons _ _ _ _ (by omega)]
  have hmin : min (age - 1).toNat h.length
      = min ((age - 1).toNat - 1) h.reverse.tail.length + 1 := by omega
  rw [← hrev, hmin]
  conv_rhs => rw [hrev]
  rw [List.take_succ_cons, List.tail_cons]
  congr 1
  rw [List.take_eq_take]
  simp only [List.tail_cons]
  omega

theorem drop_step (x y : FlutterRect) (t rest : List FlutterRect) (hlen : (x :: t).length = 10) :
    List.drop ((x :: t).length + (rest.length + 1) - 10) ((x :: t) ++ y :: rest)
      = List.drop ((t ++ [y]).length + rest.length - 10) ((t ++ [y]) ++ rest) := by
  have h1 : (x :: t).length + (rest.length + 1) - 10 = rest.length + 1 := by omega
  have h2 : (t ++ [y]).length + rest.length - 10 = rest.length := by
    simp only [List.length_append, List.length_cons, List.length_nil] at hlen ⊢
    omega
  rw [h1, h2]
  simp

theorem presentAll_bounded (presents : List (Bool × FlutterPresentInfo)) :
    ∀ hist : List FlutterRect, hist.length ≤ 10 →
      presentAll presents hist
        = (hist ++ presents.map fun p => p.2.frame_damage).drop
            (hist.length + presents.length - 10) := by
  induction presents with
  | nil =>
    intro hist hle
    have h0 : hist.length + ([] : List (Bool × FlutterPresentInfo)).length - 10 = 0 := by
      simp only [List.length_nil]; omega
    rw [h0]
    simp [presentAll]
  | cons p ps ih =>
    intro hist hle
    have hfold : presentAll (p :: ps) hist
        = presentAll ps (present_with_info p.1 p.2 hist).2 := rfl
    rw [hfold]
    by_cases hfull : hist.length = 10
    · cases hist with
      | nil => simp at hfull
      | cons x t =>
        have hstep : (present_with_info p.1 p.2 (x :: t)).2 = t ++ [p.2.frame_damage] := by
          simp only [present_with_info, kMaxHistorySize]
          rw [if_pos]
          · rfl
          · simp only [List.length_append, List.length_cons, List.length_nil] at hfull ⊢
            omega
        have hle2 : (t ++ [p.2.frame_damage]).length ≤ 10 := by
          simp only [List.length_append, List.length_cons, List.length_nil] at hfull ⊢
          omega
        rw [hstep, ih _ hle2]
        have := drop_step x p.2.frame_damage t (ps.map fun p => p.2.frame_damage) hfull
        simp only [List.length_map] at this
        simpa using this.symm
    · have hlt : hist.length < 10 := lt_of_le_of_ne hle hfull
      have hstep : (present_with_info p.1 p.2 hist).2 = hist ++ [p.2.frame_damage] := by
        simp only [present_with_info, kMaxHistorySize]
        rw [if_neg]
        simp only [List.length_append, List.length_cons, List.length_nil]
        omega
      have hle2 : (hist ++ [p.2.frame_damage]).length ≤ 10 := by
        simp only [List.length_append, List.length_cons, List.length_nil]
        omega
      rw [hstep, ih _ hle2]
      simp [Nat.add_assoc, Nat.add_comm 1]

theorem JoinFlutterRect_eq (a b : FlutterRect) :
    JoinFlutterRect a b
      = ⟨min a.left b.left, min a.top b.top, max a.right b.right, max a.bottom b.bottom⟩ := by
  simp [JoinFlutterRect, stdMin_eq_min, stdMax_eq_max]

theorem existingDamage_initial (age : Int) (h : List FlutterRect) (initial : FlutterRect)
    (hage : age ≤ 1) : existingDamage age h initial = initial := by
  unfold existingDamage
  rw [if_neg (by omega)]

theorem callback_supported (age : Int) (h : List FlutterRect) :
    fbo_with_damage_callback true age h = existingDamage age h fullSurfaceRect := rfl

theorem fullSurfaceRect_eq : fullSurfaceRect = ⟨0, 0, 800, 600⟩ := by decide

/-! ## The existing damage of a buffer -/

/-- C1: for a buffer age above 1 and a non-empty history, the existing damage
the callback computes is the most recent entry joined, in order, with the
entries that follow it among the `min (age - 1) length` most recent ones;
older entries play no part, and neither does the rectangle the computation
starts from (the full surface). -/
theorem existing_damage_joins_most_recent (age : Int) (h : List FlutterRect)
    (hage : 1 < age) (hne : h ≠ []) :
    fbo_with_damage_callback true age h
        = ((h.reverse.take (min (age - 1).toNat h.length)).tail).foldl JoinFlutterRect
            (h.getLast hne)
      ∧ ∀ full : FlutterRect,
          existingDamage age h full = fbo_with_damage_callback true age h := by
  refine ⟨?_, fun full => ?_⟩
  · rw [callback_supported, existingDamage_nonempty age h _ hage hne]
  · rw [callback_supported, existingDamage_nonempty age h _ hage hne,
      existingDamage_nonempty age h _ hage hne]

/-- With history `[A, B, D]` (`D` most recent) and age 3 the existing damage
is `join(D, B)`, which differs from `join(join(full, D), B)`. -/
theorem existing_damage_joins_most_recent_witness :
    (1 : Int) < 3 ∧ [rectA, rectB, rectD] ≠ [] ∧
      fbo_with_damage_callback true 3 [rectA, rectB, rectD] = JoinFlutterRect rectD rectB ∧
      fbo_with_damage_callback true 3 [rectA, rectB, rectD]
        ≠ JoinFlutterRect (JoinFlutterRect fullSurfaceRect rectD) rectB :=
  ⟨by decide, by decide,
    (existing_damage_joins_most_recent 3 [rectA, rectB, rectD] (by decide)
      (by decide)).1.trans (by decide),
    by decide⟩

/-- C2: starting from an empty history, after any run of presents the history
holds the last `min N 10` frame damages pushed, in push order, where `N` is
the number of presents and 10 is `kMaxHistorySize`. -/
theorem history_keeps_last_pushed (presents : List (Bool × FlutterPresentInfo)) :
    presentAll presents []
        = (presents.map fun p => p.2.frame_damage).drop
            (presents.length - kMaxHistorySize.toNat)
      ∧ (presentAll presents []).length = min presents.length kMaxHistorySize.toNat := by
  have hk : kMaxHistorySize.toNat = 10 := by decide
  have hall := presentAll_bounded presents [] (by simp)
  simp only [List.nil_append, List.length_nil, Nat.zero_add] at hall
  rw [hk]
  refine ⟨hall, ?_⟩
  rw [hall, List.length_drop, List.length_map]
  omega

/-- C3: when the buffer age is 0 or 1 the existing damage is the full-surface
rectangle `{0, 0, 800, 600}`, whatever the history. -/
theorem age_zero_or_one_gives_full_surface (h : List FlutterRect) :
    fbo_with_damage_callback true 0 h = ⟨0, 0, 800, 600⟩
      ∧ fbo_with_damage_callback true 1 h = ⟨0, 0, 800, 600⟩ := by
  rw [callback_supported, callback_supported, existingDamage_initial 0 h _ (by decide),
    existingDamage_initial 1 h _ (by decide), fullSurfaceRect_eq]
  exact ⟨rfl, rfl⟩

/-- C4: for a buffer age above 1 and an empty history the existing damage is
the full-surface rectangle. -/
theorem empty_history_gives_full_surface (age : Int) (hage : 1 < age) :
    fbo_with_damage_callback true age [] = fullSurfaceRect
      ∧ fullSurfaceRect = ⟨0, 0, 800, 600⟩ := by
  refine ⟨?_, fullSurfaceRect_eq⟩
  rw [callback_supported]
  unfold existingDamage
  rw [if_pos hage]
  rfl

/-- Age 2 with an empty history. -/
theorem empty_history_gives_full_surface_witness :
    (1 : Int) < 2 ∧ fbo_with_damage_callback true 2 [] = fullSurfaceRect :=
  ⟨by decide, (empty_history_gives_full_surface 2 (by decide)).1⟩

/-! ## `JoinFlutterRect` -/

/-- C5: `JoinFlutterRect` is commutative, associative and idempotent. -/
theorem join_comm_assoc_idem (a b c : FlutterRect) :
    JoinFlutterRect a b = JoinFlutterRect b a
      ∧ JoinFlutterRect (JoinFlutterRect a b) c = JoinFlutterRect a (JoinFlutterRect b c)
      ∧ JoinFlutterRect a a = a := by
  refine ⟨?_, ?_, ?_⟩
  · rw [JoinFlutterRect_eq, JoinFlutterRect_eq, min_comm a.left, min_comm a.top,
      max_comm a.right, max_comm a.bottom]
  · simp only [JoinFlutterRect_eq, min_assoc, max_assoc]
  · simp [JoinFlutterRect_eq]

/-- C6: `JoinFlutterRect a b` is the smallest rectangle containing both: it
contains `a`, it contains `b`, and every rectangle containing both contains
it. -/
theorem join_is_smallest_container (a b : FlutterRect) :
    (JoinFlutterRect a b).contains a ∧ (JoinFlutterRect a b).contains b
      ∧ ∀ c : FlutterRect, c.contains a → c.contains b →
          c.contains (JoinFlutterRect a b) := by
  simp only [JoinFlutterRect_eq, FlutterRect.contains]
  refine ⟨⟨min_le_left _ _, min_le_left _ _, le_max_left _ _, le_max_left _ _⟩,
    ⟨min_le_right _ _, min_le_right _ _, le_max_right _ _, le_max_right _ _⟩, ?_⟩
  rintro c ⟨h1, h2, h3, h4⟩ ⟨k1, k2, k3, k4⟩
  exact ⟨le_min h1 k1, le_min h2 k2, max_le h3 k3, max_le h4 k4⟩

/-- The full surface contains `A` and `B`, hence their join. -/
theorem join_is_smallest_container_witness :
    fullSurfaceRect.contains rectA ∧ fullSurfaceRect.contains rectB
      ∧ fullSurfaceRect.contains (JoinFlutterRect rectA rectB) :=
  ⟨by decide, by decide,
    (join_is_smallest_container rectA rectB).2.2 fullSurfaceRect (by decide) (by decide)⟩

/-! ## Presenting -/

/-- C7, as stated, fails: with a buffer swap that reports failure, an empty
history and frame damage `B`, `present_with_info` returns `true` and the
history becomes `[B]`; it neither returns failure nor leaves the history as
it was. -/
theorem present_failure_commits_example :
    present_with_info false ⟨rectA, rectB⟩ [] = (true, [rectB])
      ∧ ¬ ((present_with_info false ⟨rectA, rectB⟩ []).1 = false
            ∧ (present_with_info false ⟨rectA, rectB⟩ []).2 = []) := by
  decide

/-- C7, amended: `present_with_info` discards the result of the buffer swap.
Whatever the swap reports, it does what it does after a successful swap: it
returns `true` and commits the frame damage at the back of the history,
dropping the oldest entry when the history already held 10.  On the engine
side `GLContextPresent` returns what the present callback returns. -/
theorem present_discards_swap_result {GLPresentInfo GLFrameInfo FlutterFrameBuffer : Type}
    (swap_result : Bool) (info : FlutterPresentInfo) (hist : List FlutterRect)
    (surface : EmbedderSurfaceGL GLPresentInfo GLFrameInfo FlutterFrameBuffer)
    (present_info : GLPresentInfo) :
    present_with_info swap_result info hist = present_with_info true info hist
      ∧ (present_with_info swap_result info hist).1 = true
      ∧ (present_with_info swap_result info hist).2
          = (if 10 ≤ hist.length then hist.tail ++ [info.frame_damage]
              else hist ++ [info.frame_damage])
      ∧ (surface.GLContextPresent present_info).map Prod.fst
          = surface.gl_dispatch_table_.gl_present_callback.map
              (fun callback => callback present_info surface.damage_region_) := by
  refine ⟨rfl, rfl, ?_, ?_⟩
  · simp only [present_with_info, kMaxHistorySize]
    by_cases hfull : 10 ≤ hist.length
    · rw [if_pos hfull, if_pos]
      · cases hist with
        | nil => simp at hfull
        | cons x t => rfl
      · simp only [List.length_append, List.length_cons, List.length_nil]
        omega
    · rw [if_neg hfull, if_neg]
      simp only [List.length_append, List.length_cons, List.length_nil]
      omega
  · unfold EmbedderSurfaceGL.GLContextPresent
    cases surface.gl_dispatch_table_.gl_present_callback <;> rfl

/-- C8, as stated, fails: after `GLContextSetDamageRegion` stored the region
`{0, 0, 10, 10}`, a `GLContextPresent` whose callback reports failure leaves
that region in `damage_region_`. -/
theorem present_keeps_region_example :
    ((failingSurface.GLContextSetDamageRegion (some ⟨0, 0, 10, 10⟩)).GLContextPresent ()).map
        (fun p => (p.1, p.2.damage_region_))
      = some (false, some ⟨0, 0, 10, 10⟩) := by
  decide

/-- C8, amended: `GLContextPresent` hands the region stored by
`GLContextSetDamageRegion` to the present callback and leaves the surface,
`damage_region_` included, as it was, whatever the callback returns; a later
present without a new `GLContextSetDamageRegion` hands the same region to the
callback again. -/
theorem present_leaves_damage_region {GLPresentInfo GLFrameInfo FlutterFrameBuffer : Type}
    (surface : EmbedderSurfaceGL GLPresentInfo GLFrameInfo FlutterFrameBuffer)
    (region : Option SkIRect) (first later : GLPresentInfo)
    (callback : GLPresentInfo → Option SkIRect → Bool)
    (hcallback : surface.gl_dispatch_table_.gl_present_callback = some callback) :
    (surface.GLContextSetDamageRegion region).GLContextPresent first
        = some (callback first region, surface.GLContextSetDamageRegion region)
      ∧ ((surface.GLContextSetDamageRegion region).GLContextPresent first).bind
          (fun p => p.2.GLContextPresent later)
        = some (callback later region, surface.GLContextSetDamageRegion region) := by
  have hpresent : ∀ info : GLPresentInfo,
      (surface.GLContextSetDamageRegion region).GLContextPresent info
        = some (callback info region, surface.GLContextSetDamageRegion region) := by
    intro info
    simp only [EmbedderSurfaceGL.GLContextPresent, EmbedderSurfaceGL.GLContextSetDamageRegion,
      hcallback]
  refine ⟨hpresent first, ?_⟩
  rw [hpresent first]
  exact hpresent later

/-- The failing surface: two presents after one `GLContextSetDamageRegion`. -/
theorem present_leaves_damage_region_witness :
    failingSurface.gl_dispatch_table_.gl_present_callback = some (fun _ _ => false)
      ∧ ((failingSurface.GLContextSetDamageRegion (some ⟨0, 0, 10, 10⟩)).GLContextPresent ()).bind
          (fun p => p.2.GLContextPresent ())
        = some (false, failingSurface.GLContextSetDamageRegion (some ⟨0, 0, 10, 10⟩)) :=
  ⟨rfl, (present_leaves_damage_region failingSurface (some ⟨0, 0, 10, 10⟩) () ()
    (fun _ _ => false) rfl).2⟩

/-! ## Validity of the surface -/

/-- C9: a constructed `EmbedderSurfaceGL` is valid exactly when the dispatch
table has the make-current, clear-current, present and fbo callbacks; without
the present or the make-current callback it is invalid. -/
theorem valid_iff_required_callbacks {GLPresentInfo GLFrameInfo FlutterFrameBuffer : Type}
    (table : GLDispatchTable GLPresentInfo GLFrameInfo FlutterFrameBuffer)
    (fbo_reset_after_present external_view_embedder : Bool) :
    (EmbedderSurfaceGL.ctor table fbo_reset_after_present external_view_embedder).IsValid = true
      ↔ (table.gl_make_current_callback.isSome = true
          ∧ table.gl_clear_current_callback.isSome = true
          ∧ table.gl_present_callback.isSome = true
          ∧ table.gl_fbo_callback.isSome = true) := by
  obtain ⟨make_current, clear_current, present, fbo, make_resource_current⟩ := table
  cases make_current <;> cases clear_current <;> cases present <;> cases fbo <;>
    simp [EmbedderSurfaceGL.IsValid, EmbedderSurfaceGL.ctor, valid_initializer]

/-! ## Negative buffer ages -/

/-- C10, as stated, fails: for the age `-1` the callback produces the
full-surface rectangle, the very result it produces for the ages 0 and 1. -/
theorem negative_age_example :
    fbo_with_damage_callback true (-1) [rectA] = fullSurfaceRect
      ∧ fbo_with_damage_callback true (-1) [rectA] = fbo_with_damage_callback true 0 [rectA]
      ∧ fbo_with_damage_callback true (-1) [rectA] = fbo_with_damage_callback true 1 [rectA] := by
  decide

/-- C10, amended: the callback does not validate the age; for every negative
age it produces the full-surface rectangle, as it does for the ages 0 and
1. -/
theorem negative_age_gives_full_surface (age : Int) (h : List FlutterRect) (hneg : age < 0) :
    fbo_with_damage_callback true age h = fullSurfaceRect
      ∧ fbo_with_damage_callback true age h = fbo_with_damage_callback true 0 h
      ∧ fbo_with_damage_callback true age h = fbo_with_damage_callback true 1 h := by
  simp only [callback_supported]
  rw [existingDamage_initial age h _ (by omega), existingDamage_initial 0 h _ (by decide),
    existingDamage_initial 1 h _ (by decide)]
  exact ⟨rfl, rfl, rfl⟩

/-- The age `-7` with history `[A, B]`. -/
theorem negative_age_gives_full_surface_witness :
    (-7 : Int) < 0 ∧ fbo_with_damage_callback true (-7) [rectA, rectB] = fullSurfaceRect :=
  ⟨by decide, (negative_age_gives_full_surface (-7) [rectA, rectB] (by decide)).1⟩


/-! ## More helper lemmas -/

theorem existingDamage_of_reverse_cons (age : Int) (h : List FlutterRect)
    (initial x : FlutterRect) (rest : List FlutterRect) (hage : 1 < age)
    (hrev : h.reverse = x :: rest) :
    existingDamage age h initial
      = (rest.take (age - 1 - 1).toNat).foldl JoinFlutterRect x := by
  unfold existingDamage
  rw [if_pos hage, hrev, joinLoop_true_cons _ _ _ _ (by omega)]

theorem contains_refl (a : FlutterRect) : a.contains a :=
  ⟨le_refl _, le_refl _, le_refl _, le_refl _⟩

theorem contains_trans {a b c : FlutterRect} (hab : a.contains b) (hbc : b.contains c) :
    a.contains c :=
  ⟨le_trans hab.1 hbc.1, le_trans hab.2.1 hbc.2.1, le_trans hbc.2.2.1 hab.2.2.1,
    le_trans hbc.2.2.2 hab.2.2.2⟩

theorem join_contains_left (a b : FlutterRect) : (JoinFlutterRect a b).contains a := by
  simp only [JoinFlutterRect_eq, FlutterRect.contains]
  exact ⟨min_le_left _ _, min_le_left _ _, le_max_left _ _, le_max_left _ _⟩

theorem foldl_join_contains (l : List FlutterRect) :
    ∀ damage : FlutterRect, (l.foldl JoinFlutterRect damage).contains damage := by
  induction l with
  | nil => intro damage; exact contains_refl damage
  | cons x l ih =>
    intro damage
    exact contains_trans (ih (JoinFlutterRect damage x)) (join_contains_left damage x)

theorem foldl_join_take_mono (rest : List FlutterRect) (x : FlutterRect) (m n : Nat)
    (hmn : m ≤ n) :
    ((rest.take n).foldl JoinFlutterRect x).contains
      ((rest.take m).foldl JoinFlutterRect x) := by
  have hsplit : rest.take n = rest.take m ++ (rest.take n).drop m := by
    have h1 := (List.take_append_drop m (rest.take n)).symm
    rwa [List.take_take, min_eq_left hmn] at h1
  rw [hsplit, List.foldl_append]
  exact foldl_join_contains _ _

theorem static_cast_int32_intCast (z : Int) (hlow : -2147483648 ≤ z)
    (hhigh : z ≤ 2147483647) : static_cast_int32 (z : ℚ) = some z := by
  unfold static_cast_int32
  simp only [Rat.num_intCast, Rat.den_intCast, Nat.cast_one, Int.tdiv_one]
  rw [if_pos ⟨hlow, hhigh⟩]

theorem FlutterRectToSkIRect_intCast (l t r b : Int)
    (hl : -2147483648 ≤ l ∧ l ≤ 2147483647) (ht : -2147483648 ≤ t ∧ t ≤ 2147483647)
    (hr : -2147483648 ≤ r ∧ r ≤ 2147483647) (hb : -2147483648 ≤ b ∧ b ≤ 2147483647) :
    FlutterRectToSkIRect ⟨l, t, r, b⟩
      = some { fLeft := l, fTop := r, fRight := t, fBottom := b } := by
  simp only [FlutterRectToSkIRect, static_cast_int32_intCast l hl.1 hl.2,
    static_cast_int32_intCast t ht.1 ht.2, static_cast_int32_intCast r hr.1 hr.2,
    static_cast_int32_intCast b hb.1 hb.2]

/-! ## The fallback age -/

/-- C11: when the buffer-age extension is not supported, the callback
produces, for every history and whatever the surface would report, the
existing damage of the constant age 4: the full surface when the history is
empty, and otherwise the most recent entry joined with the rest of the
`min 3 length` most recent entries.  The callback is total, so no error
arises. -/
theorem unsupported_age_is_four (queried_age : Int) (h : List FlutterRect) :
    fbo_with_damage_callback false queried_age h = fbo_with_damage_callback true 4 h
      ∧ fbo_with_damage_callback false queried_age h = existingDamage 4 h fullSurfaceRect
      ∧ fbo_with_damage_callback false queried_age [] = fullSurfaceRect
      ∧ ∀ hne : h ≠ [],
          fbo_with_damage_callback false queried_age h
            = ((h.reverse.take (min 3 h.length)).tail).foldl JoinFlutterRect
                (h.getLast hne) := by
  refine ⟨rfl, rfl, rfl, fun hne => ?_⟩
  have hfour : fbo_with_damage_callback false queried_age h
      = existingDamage 4 h fullSurfaceRect := rfl
  rw [hfour, existingDamage_nonempty 4 h _ (by decide) hne]
  rfl

/-- With the history `[D, A, B, A]` and no buffer-age extension the existing
damage is the join of the last three entries; `D` is left out. -/
theorem unsupported_age_is_four_witness :
    fbo_with_damage_callback false 0 [rectD, rectA, rectB, rectA]
        = JoinFlutterRect (JoinFlutterRect rectA rectB) rectA
      ∧ fbo_with_damage_callback false 0 [rectD, rectA, rectB, rectA]
        ≠ JoinFlutterRect (JoinFlutterRect (JoinFlutterRect rectA rectB) rectA) rectD :=
  ⟨((unsupported_age_is_four 0 [rectD, rectA, rectB, rectA]).2.2.2 (by decide)).trans
      (by decide),
    by decide⟩

/-! ## `FlutterRectToSkIRect` -/

/-- C12 fails on the code: for the rectangle with left 10, top 20, right 30
and bottom 40, `FlutterRectToSkIRect` yields the `SkIRect` with left 10,
top 30, right 20 and bottom 40, the top and the right bound exchanged, and
`GLContextFBO` stores that rectangle as the existing damage. -/
theorem FlutterRectToSkIRect_swaps_top_and_right :
    FlutterRectToSkIRect rectE
        = some { fLeft := 10, fTop := 30, fRight := 20, fBottom := 40 }
      ∧ FlutterRectToSkIRect rectE
        ≠ some { fLeft := 10, fTop := 20, fRight := 30, fBottom := 40 }
      ∧ damageSurface.GLContextFBO Prod.fst Prod.snd ()
        = some (0, { fLeft := 10, fTop := 30, fRight := 20, fBottom := 40 }) := by
  decide

/-! ## Monotonicity in the buffer age -/

/-- C13: for a non-empty history and ages `a`, `b` with `2 ≤ a ≤ b`, the
existing damage computed for the age `b` contains the one computed for the
age `a`: its left and top are no greater, its right and bottom no smaller. -/
theorem existing_damage_monotone_in_age (h : List FlutterRect) (a b : Int)
    (hne : h ≠ []) (ha : 2 ≤ a) (hab : a ≤ b) :
    (fbo_with_damage_callback true b h).contains (fbo_with_damage_callback true a h) := by
  have hne2 : h.reverse ≠ [] := by simpa using hne
  obtain ⟨x, rest, hrev⟩ := List.exists_cons_of_ne_nil hne2
  rw [callback_supported, callback_supported,
    existingDamage_of_reverse_cons b h _ x rest (by omega) hrev,
    existingDamage_of_reverse_cons a h _ x rest (by omega) hrev]
  exact foldl_join_take_mono rest x _ _ (by omega)

/-- The history `[A, B, D]` with the ages 2 and 3: the damage for age 3,
`join(D, B)`, contains the damage for age 2, `D`. -/
theorem existing_damage_monotone_in_age_witness :
    [rectA, rectB, rectD] ≠ [] ∧ (2 : Int) ≤ 2 ∧ (2 : Int) ≤ 3
      ∧ (fbo_with_damage_callback true 3 [rectA, rectB, rectD]).contains
          (fbo_with_damage_callback true 2 [rectA, rectB, rectD])
      ∧ fbo_with_damage_callback true 3 [rectA, rectB, rectD]
          ≠ fbo_with_damage_callback true 2 [rectA, rectB, rectD] :=
  ⟨by decide, by decide, by decide,
    existing_damage_monotone_in_age [rectA, rectB, rectD] 2 3 (by decide) (by decide)
      (by decide),
    by decide⟩

end FlutterEngine
